import Mathlib

/-!
Verification model of the tile-based action game core (`src/game.py`).

Conventions of the shallow embedding:
* Wall-clock / simulated time is represented in hundredths of a second as an
  `Int` (every literal duration in the source is an exact multiple of 0.01 s),
  so a Python literal `0.15` appears here as `15`, `3.0` as `300`, and so on.
  This keeps every predicate decidable and every definition executable.
* Python `int` values become `Int`; floor division (`//`) becomes `Int.fdiv`.
* The module-level globals (`SCORE`, `HAS_KEY`, `HIGH_SCORE`, the high-score
  file, and the victory-freeze flag of the screen-state manager) are threaded
  explicitly through a `Globals` record.
* Side effects that do not touch game state (sound playback, `print`, music,
  blitting) are dropped; animation state is modelled in full.
* The high-score file is modelled as `Option (List Char)` (`none` = missing
  file, `some s` = file contents).
-/

/-- Time in hundredths of a second. -/
abbrev Time := Int

def WIDTH : Int := 320
def HEIGHT : Int := 240
def TILE_SIZE : Int := 16
/-- `MOVEMENT_COOLDOWN = 0.15` seconds. -/
def MOVEMENT_COOLDOWN : Time := 15

/-- `pygame.Rect` with integer coordinates. -/
structure Rect where
  x : Int
  y : Int
  w : Int
  h : Int
deriving DecidableEq, Repr

/-- `pygame.Rect.colliderect`: strict overlap on both axes (the test used by
the C implementation of pygame). -/
def Rect.colliderect (a b : Rect) : Bool :=
  decide (a.x < b.x + b.w) && decide (b.x < a.x + a.w) &&
  decide (a.y < b.y + b.h) && decide (b.y < a.y + a.h)

/-! ## High score persistence (`load_high_score` / `save_high_score`)

`save_high_score` writes `str(score)` to `data/highscore.txt`;
`load_high_score` reads the file, strips surrounding whitespace and parses an
optionally signed decimal integer, returning 0 on a missing file
(`FileNotFoundError`) or unparsable contents (`ValueError`). -/

/-- The decimal digit character for `d` (Python digit of `str`). -/
def digitCh (d : Nat) : Char := Char.ofNat (48 + d)

/-- Whether `c` is an ASCII decimal digit. -/
def isDigitCh (c : Char) : Bool := decide (48 ≤ c.toNat) && decide (c.toNat ≤ 57)

/-- Numeric value of an ASCII digit character. -/
def digitVal (c : Char) : Nat := c.toNat - 48

/-- The character sequence of Python `str(n)` for a natural number `n`. -/
def natChars (n : Nat) : List Char :=
  if n = 0 then [Char.ofNat 48] else ((Nat.digits 10 n).map digitCh).reverse

/-- The character sequence of Python `str(n)` for an integer `n`. -/
def pyStr (n : Int) : List Char :=
  if n < 0 then Char.ofNat 45 :: natChars n.natAbs else natChars n.natAbs

/-- Whether `c` is ASCII whitespace (the characters removed by `str.strip()`
that can occur in a text file). -/
def isSpaceCh (c : Char) : Bool :=
  decide (c.toNat = 32) || decide (c.toNat = 9) || decide (c.toNat = 10) ||
  decide (c.toNat = 13) || decide (c.toNat = 11) || decide (c.toNat = 12)

/-- Python `str.strip()` on a character list. -/
def stripChars (l : List Char) : List Char :=
  ((l.dropWhile isSpaceCh).reverse.dropWhile isSpaceCh).reverse

/-- Parse a nonempty all-digit character list as a natural number. -/
def parseNatChars (l : List Char) : Option Nat :=
  if l.isEmpty || !l.all isDigitCh then none
  else some (Nat.ofDigits 10 ((l.map digitVal).reverse))

/-- Python `int(s)` on already-stripped input: an optional sign followed by at
least one digit; `none` models `ValueError`.  (CPython additionally accepts
underscore digit separators, which `str` never produces; such inputs count as
corrupt here.) -/
def pyInt (l : List Char) : Option Int :=
  match l with
  | [] => none
  | c :: rest =>
    if c.toNat = 45 then (parseNatChars rest).map (fun m : Nat => -(m : Int))
    else if c.toNat = 43 then (parseNatChars rest).map (fun m : Nat => (m : Int))
    else (parseNatChars (c :: rest)).map (fun m : Nat => (m : Int))

/-- `load_high_score()`: contents of `data/highscore.txt` (or `none` if the
file is missing), stripped and parsed; 0 on failure. -/
def load_high_score (file : Option (List Char)) : Int :=
  match file with
  | none => 0
  | some s => (pyInt (stripChars s)).getD 0

/-- `save_high_score(score)`: the resulting file contents, `str(score)`. -/
def save_high_score (score : Int) : Option (List Char) :=
  some (pyStr score)

/-! ## Animation engine (`AnimationManager`) -/

/-- One named animation: `{"frames": [...], "duration": d, "loop": b}`.
`duration` is per-frame display time in hundredths of a second. -/
structure AnimClip where
  frames : List (Nat × Nat)
  duration : Time
  loop : Bool
deriving DecidableEq, Repr

/-- The `animations` dictionary: an association list keyed by clip name. -/
abbrev AnimTable := List (String × AnimClip)

/-- Dictionary lookup in an `AnimTable`. -/
def lookupAnim (t : AnimTable) (name : String) : Option AnimClip :=
  match t with
  | [] => none
  | (k, c) :: rest => if k = name then some c else lookupAnim rest name

/-- Mutable state of `AnimationManager` (sprite surfaces are dropped;
`frame_idx` is a Python `int`, hence `Int`). -/
structure AnimationManager where
  animations : AnimTable
  current_anim : Option String
  frame_idx : Int
  last_update : Time
  finished : Bool
  paused : Bool
deriving DecidableEq, Repr

/-- `AnimationManager.__init__`: no clip selected, index 0, not finished. -/
def AnimationManager.init (animations : AnimTable) : AnimationManager :=
  { animations := animations, current_anim := none, frame_idx := 0,
    last_update := 0, finished := false, paused := false }

/-- `AnimationManager.play(anim_name, reset=True)`; `now` stands for the
`time.time()` call inside.  Unknown names are ignored (warning only). -/
def AnimationManager.play (m : AnimationManager) (anim_name : String)
    (reset : Bool) (now : Time) : AnimationManager :=
  match lookupAnim m.animations anim_name with
  | none => m
  | some _ =>
    if m.current_anim ≠ some anim_name ∨ reset then
      { m with current_anim := some anim_name, frame_idx := 0,
               last_update := now, finished := false }
    else m

/-- `AnimationManager.set_paused`. -/
def AnimationManager.set_paused (m : AnimationManager) (paused : Bool) :
    AnimationManager :=
  { m with paused := paused }

/-- `AnimationManager.update()`; `now` stands for `time.time()`.  The clip
lookup cannot fail for states produced by `play` (which validates the name);
the `none` branch mirrors that unreachability as a no-op. -/
def AnimationManager.update (m : AnimationManager) (now : Time) :
    AnimationManager :=
  match m.current_anim with
  | none => m
  | some name =>
    if m.finished ∨ m.paused then m
    else
      match lookupAnim m.animations name with
      | none => m
      | some anim =>
        if anim.duration ≤ now - m.last_update then
          let fi := m.frame_idx + 1
          let fc : Int := anim.frames.length
          if fc ≤ fi then
            if anim.loop then
              { m with frame_idx := 0, last_update := now }
            else
              { m with frame_idx := fc - 1, last_update := now,
                       finished := true }
          else { m with frame_idx := fi, last_update := now }
        else m

/-- Index used by `AnimationManager.get_frame`: `min(frame_idx, frame_count - 1)`. -/
def AnimationManager.safe_frame_idx (m : AnimationManager) : Int :=
  match m.current_anim with
  | none => m.frame_idx
  | some name =>
    match lookupAnim m.animations name with
    | none => m.frame_idx
    | some anim => min m.frame_idx ((anim.frames.length : Int) - 1)

/-! ## Global game progress

`SCORE`, `HAS_KEY`, `HIGH_SCORE`, the high-score file, and the screen-state
manager's victory-freeze flag, threaded explicitly. -/

structure Globals where
  score : Int
  has_key : Bool
  high_score : Int
  hs_file : Option (List Char)
  victory_freeze : Bool
  victory_freeze_timer : Time
deriving DecidableEq, Repr

/-- `GameStateManager._start_victory_freeze()`. -/
def Globals.start_victory_freeze (g : Globals) (now : Time) : Globals :=
  if ¬ g.victory_freeze then
    { g with victory_freeze := true, victory_freeze_timer := now }
  else g

/-! ## Entity state enums (Python uses strings) -/

inductive Facing
  | left
  | right
deriving DecidableEq, Repr

/-- The string used in f-strings such as `f"walk_{self.facing}"`. -/
def Facing.str : Facing → String
  | .left => "left"
  | .right => "right"

/-- Player behavior states: `"idle" | "moving" | "attacking" | "hurt" | "dying"`. -/
inductive PState
  | idle
  | moving
  | attacking
  | hurt
  | dying
deriving DecidableEq, Repr

/-- Enemy / boss behavior states: `"moving" | "idle" | "hurt" | "dying"`. -/
inductive EState
  | moving
  | idle
  | hurt
  | dying
deriving DecidableEq, Repr

/-! ## Player (`class Player`) -/

/-- `Player.ANIMATIONS` (durations in hundredths of a second). -/
def PLAYER_ANIMATIONS : AnimTable :=
  [("idle_right", { frames := [(0, 0), (0, 1), (0, 2)], duration := 60, loop := true }),
   ("idle_left", { frames := [(1, 0), (1, 1), (1, 2)], duration := 60, loop := true }),
   ("walk_right", { frames := [(2, 0), (2, 1), (2, 2), (2, 3)], duration := 60, loop := true }),
   ("walk_left", { frames := [(3, 0), (3, 1), (3, 2), (3, 3)], duration := 60, loop := true }),
   ("hurt_right", { frames := [(4, 1), (4, 2), (4, 3), (4, 4), (4, 5)], duration := 60, loop := false }),
   ("hurt_left", { frames := [(5, 1), (5, 2), (5, 3), (5, 4), (5, 5)], duration := 60, loop := false }),
   ("die_right", { frames := [(6, 1), (6, 2), (6, 3)], duration := 60, loop := false }),
   ("die_left", { frames := [(7, 1), (7, 2), (7, 3)], duration := 60, loop := false })]

/-- `Player.SWORD_ANIMATIONS`. -/
def SWORD_ANIMATIONS : AnimTable :=
  [("attack_left", { frames := [(0, 0), (0, 1), (0, 2), (0, 3), (0, 4)], duration := 10, loop := false }),
   ("attack_right", { frames := [(2, 0), (2, 1), (2, 2), (2, 3), (2, 4)], duration := 10, loop := false })]

structure Player where
  x : Int
  y : Int
  facing : Facing
  last_move : Time
  health : Int
  max_health : Int
  state : PState
  state_timer : Time
  invincible_timer : Time
  anim : AnimationManager
  sword_anim : AnimationManager
deriving DecidableEq, Repr

/-- `Player.__init__(x, y)`; `now` models the `time.time()` seen by
`anim.play("idle_right")`. -/
def Player.init (x y : Int) (now : Time) : Player :=
  { x := (x.fdiv TILE_SIZE) * TILE_SIZE,
    y := (y.fdiv TILE_SIZE) * TILE_SIZE,
    facing := .right,
    last_move := 0,
    health := 3,
    max_health := 3,
    state := .idle,
    state_timer := 0,
    invincible_timer := 0,
    anim := (AnimationManager.init PLAYER_ANIMATIONS).play "idle_right" true now,
    sword_anim := AnimationManager.init SWORD_ANIMATIONS }

/-- `Player._can_move(current_time)`. -/
def Player.can_move (p : Player) (current_time : Time) : Bool :=
  decide (MOVEMENT_COOLDOWN ≤ current_time - p.last_move)

/-- `Player.move(dx, dy, level_width, level_height, current_time)`: returns
`(accepted, updated player)`.  Note the facing update happens before the
bounds check in the source. -/
def Player.move (p : Player) (dx dy level_width level_height : Int)
    (current_time : Time) : Bool × Player :=
  if p.state = .attacking ∨ p.state = .hurt ∨ p.state = .dying ∨
      p.can_move current_time = false then
    (false, p)
  else
    let p := if 0 < dx then { p with facing := .right }
             else if dx < 0 then { p with facing := .left } else p
    let new_x := p.x + dx * TILE_SIZE
    let new_y := p.y + dy * TILE_SIZE
    if 0 ≤ new_x ∧ new_x ≤ level_width - TILE_SIZE ∧
       0 ≤ new_y ∧ new_y ≤ level_height - TILE_SIZE then
      (true, { p with x := new_x, y := new_y, last_move := current_time,
                      state := .moving })
    else (false, p)

/-- `Player._start_hurt()`: hurt state, 1.8 s invincibility, hurt clip. -/
def Player.start_hurt (p : Player) (now : Time) : Player :=
  { p with state := .hurt, state_timer := now, invincible_timer := 180,
           anim := p.anim.play ("hurt_" ++ p.facing.str) true now }

/-- `Player._start_death()`: dying state, death clip (music stop dropped). -/
def Player.start_death (p : Player) (now : Time) : Player :=
  { p with state := .dying, state_timer := now,
           anim := p.anim.play ("die_" ++ p.facing.str) true now }

/-- `Player.take_damage(damage=1)`: returns `(accepted, updated player)`. -/
def Player.take_damage (p : Player) (damage : Int) (now : Time) :
    Bool × Player :=
  if 0 < p.invincible_timer ∨ p.state = .hurt ∨ p.state = .dying then
    (false, p)
  else
    let p := { p with health := p.health - damage }
    if p.health ≤ 0 then (true, p.start_death now)
    else (true, p.start_hurt now)

/-- `Player.start_attack()`. -/
def Player.start_attack (p : Player) (now : Time) : Bool × Player :=
  if p.state = .attacking ∨ p.state = .hurt ∨ p.state = .dying then
    (false, p)
  else
    (true, { p with state := .attacking, state_timer := now,
                    sword_anim := p.sword_anim.play ("attack_" ++ p.facing.str) true now })

/-- `Player.get_rect()`. -/
def Player.get_rect (p : Player) : Rect :=
  { x := p.x, y := p.y, w := TILE_SIZE, h := TILE_SIZE }

/-- `Player.is_dead()`. -/
def Player.is_dead (p : Player) : Bool := decide (p.health ≤ 0)

/-! ## Enemy (`class Enemy`) -/

/-- `Enemy.ANIMATIONS`. -/
def ENEMY_ANIMATIONS : AnimTable :=
  [("idle_right", { frames := [(0, 0), (0, 1)], duration := 60, loop := true }),
   ("idle_left", { frames := [(1, 0), (1, 1)], duration := 60, loop := true }),
   ("walk_right", { frames := [(2, 0), (2, 1), (2, 2)], duration := 40, loop := true }),
   ("walk_left", { frames := [(3, 0), (3, 1), (3, 2)], duration := 40, loop := true }),
   ("hurt_right", { frames := [(4, 0), (4, 1), (4, 2), (4, 3)], duration := 20, loop := false }),
   ("hurt_left", { frames := [(5, 0), (5, 1), (5, 2), (5, 3)], duration := 20, loop := false })]

structure Enemy where
  x : Int
  y : Int
  start_x : Int
  start_y : Int
  facing : Facing
  movement_type : String
  blocks : Int
  blocks_moved : Int
  last_move : Time
  move_cooldown : Time
  state : EState
  state_timer : Time
  anim : AnimationManager
deriving DecidableEq, Repr

/-- `Enemy.__init__(x, y, enemy_type, movement, blocks)`; the sprite path
derived from `enemy_type` is irrelevant to behavior and dropped. -/
def Enemy.init (x y : Int) (movement : String) (blocks : Int) (now : Time) :
    Enemy :=
  { x := (x.fdiv TILE_SIZE) * TILE_SIZE,
    y := (y.fdiv TILE_SIZE) * TILE_SIZE,
    start_x := (x.fdiv TILE_SIZE) * TILE_SIZE,
    start_y := (y.fdiv TILE_SIZE) * TILE_SIZE,
    facing := .right,
    movement_type := movement,
    blocks := blocks,
    blocks_moved := 0,
    last_move := 0,
    move_cooldown := 30,
    state := .moving,
    state_timer := 0,
    anim := (AnimationManager.init ENEMY_ANIMATIONS).play "walk_right" true now }

/-- The slice of `LevelLoader` visible to entity updates: level pixel size and
the `is_position_blocked` query.  `none` models passing `level_loader=None`. -/
structure LoaderQ where
  level_width : Int
  level_height : Int
  blocked : Int → Int → Bool

/-- `Enemy._update_movement(now, level_loader)`. -/
def Enemy.update_movement (e : Enemy) (now : Time) (lq : Option LoaderQ) :
    Enemy :=
  if now - e.last_move < e.move_cooldown then e
  else
    let dx : Int :=
      if e.movement_type = "horizontal" then
        (if e.facing = .right then 1 else -1)
      else 0
    let dy : Int :=
      if e.movement_type = "horizontal" then 0
      else (if e.facing = .right then 1 else -1)
    let new_x := e.x + dx * TILE_SIZE
    let new_y := e.y + dy * TILE_SIZE
    let can_move : Bool :=
      match lq with
      | none => true
      | some L => ! L.blocked new_x new_y
    if can_move then
      let e := { e with x := new_x, y := new_y,
                        blocks_moved := e.blocks_moved + 1, last_move := now }
      if e.blocks ≤ e.blocks_moved then
        { e with state := .idle, state_timer := now,
                 anim := e.anim.play ("idle_" ++ e.facing.str) true now }
      else e
    else
      { e with state := .idle, state_timer := now,
               anim := e.anim.play ("idle_" ++ e.facing.str) true now }

/-- `Enemy.update(level_loader)`; `now` models `time.time()`. -/
def Enemy.update (e : Enemy) (now : Time) (lq : Option LoaderQ) : Enemy :=
  if e.state = .dying then
    if 100 ≤ now - e.state_timer then e
    else { e with anim := e.anim.update now }
  else if e.state = .hurt then
    let e :=
      if 80 ≤ now - e.state_timer then
        { e with state := .moving,
                 anim := e.anim.play ("walk_" ++ e.facing.str) true now }
      else e
    { e with anim := e.anim.update now }
  else if e.state = .moving then
    let e := e.update_movement now lq
    { e with anim := e.anim.update now }
  else
    let e :=
      if 300 ≤ now - e.state_timer then
        let f : Facing := if e.facing = .right then .left else .right
        { e with facing := f, state := .moving, blocks_moved := 0,
                 anim := e.anim.play ("walk_" ++ f.str) true now }
      else e
    { e with anim := e.anim.update now }

/-- `Enemy.take_damage()`: returns `(accepted, updated enemy)`. -/
def Enemy.take_damage (e : Enemy) (now : Time) : Bool × Enemy :=
  if e.state = .hurt ∨ e.state = .dying then (false, e)
  else
    (true, { e with state := .hurt, state_timer := now,
                    anim := e.anim.play ("hurt_" ++ e.facing.str) true now })

/-- `Enemy.start_death()` (sound dropped). -/
def Enemy.start_death (e : Enemy) (now : Time) : Enemy :=
  { e with state := .dying, state_timer := now }

/-- `Enemy.should_be_removed()`. -/
def Enemy.should_be_removed (e : Enemy) (now : Time) : Bool :=
  decide (e.state = .dying) && decide (100 ≤ now - e.state_timer)

/-- `Enemy.get_rect()`. -/
def Enemy.get_rect (e : Enemy) : Rect :=
  { x := e.x, y := e.y, w := TILE_SIZE, h := TILE_SIZE }

/-! ## Boss (`class Boss(Enemy)`) -/

/-- `Boss.BOSS_ANIMATIONS`. -/
def BOSS_ANIMATIONS : AnimTable :=
  [("idle_right", { frames := [(0, 0), (0, 1)], duration := 60, loop := true }),
   ("idle_left", { frames := [(1, 0), (1, 1)], duration := 60, loop := true }),
   ("walk_right", { frames := [(2, 0), (2, 1), (2, 2), (2, 3)], duration := 40, loop := true }),
   ("walk_left", { frames := [(3, 0), (3, 1), (3, 2), (3, 3)], duration := 40, loop := true }),
   ("hurt_right", { frames := [(4, 0), (4, 1), (4, 2), (4, 3)], duration := 20, loop := false }),
   ("hurt_left", { frames := [(5, 0), (5, 1), (5, 2), (5, 3)], duration := 20, loop := false })]

structure Boss where
  x : Int
  y : Int
  start_x : Int
  start_y : Int
  facing : Facing
  movement_type : String
  state : EState
  state_timer : Time
  max_health : Int
  current_health : Int
  size : Int
  anim : AnimationManager
  move_cooldown : Time
  last_move : Time
  blocks_moved : Int
  target_blocks : Int
  t_sequence : List String
  current_sequence_index : Nat
  current_direction : String
  defeated : Bool
  victory_timer : Time
deriving DecidableEq, Repr

/-- `Boss.__init__(x, y)` (does not call `Enemy.__init__`); `now` models the
`time.time()` seen by the initial `anim.play("walk_right")`. -/
def Boss.init (x y : Int) (now : Time) : Boss :=
  { x := (x.fdiv TILE_SIZE) * TILE_SIZE,
    y := (y.fdiv TILE_SIZE) * TILE_SIZE,
    start_x := (x.fdiv TILE_SIZE) * TILE_SIZE,
    start_y := (y.fdiv TILE_SIZE) * TILE_SIZE,
    facing := .right,
    movement_type := "boss_ai",
    state := .moving,
    state_timer := 0,
    max_health := 3,
    current_health := 3,
    size := 32,
    anim := (AnimationManager.init BOSS_ANIMATIONS).play "walk_right" true now,
    move_cooldown := 30,
    last_move := 0,
    blocks_moved := 0,
    target_blocks := 3,
    t_sequence := ["right", "left", "left", "right", "down", "up"],
    current_sequence_index := 0,
    current_direction := "right",
    defeated := false,
    victory_timer := 0 }

/-- `Boss.get_rect()`: 32x32. -/
def Boss.get_rect (b : Boss) : Rect :=
  { x := b.x, y := b.y, w := b.size, h := b.size }

/-- `Boss._start_defeat()`: defeat flags, +500 score, high-score persistence,
victory freeze. -/
def Boss.start_defeat (b : Boss) (now : Time) (g : Globals) :
    Boss × Globals :=
  let b := { b with defeated := true, state := .dying, state_timer := now,
                    victory_timer := now }
  let g := { g with score := g.score + 500 }
  let g :=
    if g.high_score < g.score then
      { g with high_score := g.score, hs_file := save_high_score g.score }
    else g
  (b, g.start_victory_freeze now)

/-- `Boss.take_damage()`: returns `(accepted, updated boss, updated globals)`.
An accepted non-lethal hit adds 25 to the score; the lethal hit goes through
`_start_defeat` (+500) instead. -/
def Boss.take_damage (b : Boss) (now : Time) (g : Globals) :
    Bool × Boss × Globals :=
  if b.state = .hurt ∨ b.state = .dying then (false, b, g)
  else
    let b := { b with current_health := b.current_health - 1 }
    if b.current_health ≤ 0 then
      let r := b.start_defeat now g
      (true, r.1, r.2)
    else
      let b := { b with state := .hurt, state_timer := now,
                        anim := b.anim.play ("hurt_" ++ b.facing.str) true now }
      (true, b, { g with score := g.score + 25 })

/-- `Boss._start_current_direction_animation()`. -/
def Boss.start_current_direction_animation (b : Boss) (now : Time) : Boss :=
  if b.current_direction = "right" ∨ b.current_direction = "down" then
    { b with facing := .right, anim := b.anim.play "walk_right" true now }
  else
    { b with facing := .left, anim := b.anim.play "walk_left" true now }

/-- `Boss._next_direction()`. -/
def Boss.next_direction (b : Boss) (now : Time) : Boss :=
  let idx := (b.current_sequence_index + 1) % b.t_sequence.length
  let b := { b with blocks_moved := 0, current_sequence_index := idx,
                    current_direction := b.t_sequence.getD idx "right" }
  b.start_current_direction_animation now

/-- `Boss._update_t_motion(now, level_loader)`. -/
def Boss.update_t_motion (b : Boss) (now : Time) (lq : Option LoaderQ) :
    Boss :=
  if now - b.last_move < b.move_cooldown then b
  else
    let dx : Int :=
      if b.current_direction = "right" then 1
      else if b.current_direction = "left" then -1 else 0
    let dy : Int :=
      if b.current_direction = "down" then 1
      else if b.current_direction = "up" then -1 else 0
    let new_x := b.x + dx * TILE_SIZE
    let new_y := b.y + dy * TILE_SIZE
    let can_move : Bool :=
      match lq with
      | none => true
      | some L =>
        if new_x < 0 ∨ L.level_width - b.size < new_x ∨
           new_y < 0 ∨ L.level_height - b.size < new_y then false
        else ! L.blocked new_x new_y
    if can_move then
      let b := { b with x := new_x, y := new_y,
                        blocks_moved := b.blocks_moved + 1, last_move := now }
      if b.target_blocks ≤ b.blocks_moved then b.next_direction now else b
    else b.next_direction now

/-- `Boss.update(level_loader)`. -/
def Boss.update (b : Boss) (now : Time) (lq : Option LoaderQ) : Boss :=
  if b.defeated then b
  else if b.state = .hurt then
    let b :=
      if 80 ≤ now - b.state_timer then
        ({ b with state := .moving } : Boss).start_current_direction_animation now
      else b
    { b with anim := b.anim.update now }
  else if b.state = .dying then
    { b with anim := b.anim.update now }
  else
    let b := b.update_t_motion now lq
    { b with anim := b.anim.update now }

/-- `Boss.should_be_removed()`: only 3.0 s after defeat. -/
def Boss.should_be_removed (b : Boss) (now : Time) : Bool :=
  if ¬ b.defeated then false
  else decide (300 ≤ now - b.victory_timer)

/-! ## Doors and pickups -/

structure Door where
  rect : Rect
  locked : Bool
deriving DecidableEq, Repr

/-- `Door.__init__(x, y, width, height, locked=True)`. -/
def Door.init (x y width height : Int) (locked : Bool) : Door :=
  { rect := { x := x, y := y, w := width, h := height }, locked := locked }

/-- `Door.can_enter()` reads the global `HAS_KEY`. -/
def Door.can_enter (d : Door) (has_key : Bool) : Bool :=
  if ! d.locked then true else has_key

/-- `Door.check_collision(player_rect)`. -/
def Door.check_collision (d : Door) (player_rect : Rect) : Bool :=
  d.rect.colliderect player_rect

/-- `Pickup.ANIMATIONS`. -/
def PICKUP_ANIMATIONS : AnimTable :=
  [("coin", { frames := [(0, 0), (0, 1), (0, 2), (0, 3)], duration := 60, loop := true }),
   ("key", { frames := [(1, 0), (1, 1), (1, 2), (1, 3)], duration := 60, loop := true }),
   ("heart", { frames := [(4, 0), (4, 1), (4, 2), (4, 3)], duration := 60, loop := true })]

structure Pickup where
  x : Int
  y : Int
  pickup_type : String
  collected : Bool
  anim : AnimationManager
deriving DecidableEq, Repr

/-- `Pickup.__init__(x, y, pickup_type="heart")`: unknown types default to
`"heart"`. -/
def Pickup.init (x y : Int) (pickup_type : String) (now : Time) : Pickup :=
  let known := pickup_type = "coin" ∨ pickup_type = "key" ∨ pickup_type = "heart"
  { x := (x.fdiv TILE_SIZE) * TILE_SIZE,
    y := (y.fdiv TILE_SIZE) * TILE_SIZE,
    pickup_type := if known then pickup_type else "heart",
    collected := false,
    anim := (AnimationManager.init PICKUP_ANIMATIONS).play
      (if known then pickup_type else "heart") true now }

/-- `Pickup.get_rect()`. -/
def Pickup.get_rect (pk : Pickup) : Rect :=
  { x := pk.x, y := pk.y, w := TILE_SIZE, h := TILE_SIZE }

/-- `Pickup.should_be_removed()`. -/
def Pickup.should_be_removed (pk : Pickup) : Bool := pk.collected

/-- `Pickup.collect(player)`: returns
`(accepted, updated pickup, updated player, updated globals)`. -/
def Pickup.collect (pk : Pickup) (pl : Player) (g : Globals) :
    Bool × Pickup × Player × Globals :=
  if pk.collected then (false, pk, pl, g)
  else
    let pk := { pk with collected := true }
    if pk.pickup_type = "coin" then
      (true, pk, pl, { g with score := g.score + 10 })
    else if pk.pickup_type = "heart" then
      if pl.health < pl.max_health then
        (true, pk, { pl with health := pl.health + 1 }, g)
      else (true, pk, pl, g)
    else if pk.pickup_type = "key" then
      (true, pk, pl, { g with has_key := true })
    else (true, pk, pl, g)

/-! ## World model (`class LevelLoader`): the state slice the claims touch -/

/-- Registry entries dispatched on `isinstance(obj, Enemy)`: a plain `Enemy`
or a `Boss` (which subclasses `Enemy`).  The player also sits in the registry
but is skipped by every `isinstance(obj, Enemy)` guard and manipulated through
the loader's `player` reference, so it is kept separate here. -/
inductive GObj
  | enemyObj (e : Enemy)
  | bossObj (b : Boss)
deriving DecidableEq, Repr

/-- `obj.state` of a registry entry. -/
def GObj.state : GObj → EState
  | .enemyObj e => e.state
  | .bossObj b => b.state

/-- `obj.get_rect()` of a registry entry (dynamic dispatch: 16x16 for an
enemy, 32x32 for the boss). -/
def GObj.get_rect : GObj → Rect
  | .enemyObj e => e.get_rect
  | .bossObj b => b.get_rect

/-- `isinstance(obj, Boss)`. -/
def GObj.isBoss : GObj → Bool
  | .enemyObj _ => false
  | .bossObj _ => true

/-- The mutable `LevelLoader` fields the verified operations read or write. -/
structure LoaderSt where
  collision_grid : List (List Bool)
  _level_width : Int
  _level_height : Int
  transitioning : Bool
  transition_timer : Time
  transition_duration : Time
  doors : List Door
deriving Repr

/-- `LevelLoader.is_position_blocked(x, y)`: tile-align, treat out-of-grid as
blocked, else read the grid cell.  (`collision_grid[0]` is only reached when
the grid is nonempty, as in the short-circuiting Python condition.) -/
def LoaderSt.is_position_blocked (L : LoaderSt) (x y : Int) : Bool :=
  let tile_x := x.fdiv TILE_SIZE
  let tile_y := y.fdiv TILE_SIZE
  if tile_x < 0 ∨ tile_y < 0 ∨ (L.collision_grid.length : Int) ≤ tile_y ∨
     ((L.collision_grid.headD []).length : Int) ≤ tile_x then true
  else (L.collision_grid.getD tile_y.toNat []).getD tile_x.toNat false

/-- `LevelLoader.get_level_size()`. -/
def LoaderSt.get_level_size (L : LoaderSt) : Int × Int :=
  (L._level_width, L._level_height)

/-- `LevelLoader.move_player(dx, dy)` on an existing player: destination
blocked-check first, then delegate to `Player.move`. -/
def LoaderSt.move_player (L : LoaderSt) (p : Player) (dx dy : Int)
    (current_time : Time) : Bool × Player :=
  let new_x := p.x + dx * TILE_SIZE
  let new_y := p.y + dy * TILE_SIZE
  if ! L.is_position_blocked new_x new_y then
    p.move dx dy L._level_width L._level_height current_time
  else (false, p)

/-- `LevelLoader.start_transition()`. -/
def LoaderSt.start_transition (L : LoaderSt) (now : Time) : LoaderSt :=
  if L.transitioning then L
  else { L with transitioning := true, transition_timer := now }

/-- The `for door in self.doors` loop body of `try_enter_door`. -/
def enter_door_loop (doors : List Door) (player_rect : Rect) (L : LoaderSt)
    (g : Globals) (now : Time) : LoaderSt × Globals :=
  match doors with
  | [] => (L, g)
  | door :: rest =>
    if door.check_collision player_rect then
      if door.can_enter g.has_key then
        let g := if door.locked ∧ g.has_key then { g with has_key := false }
                 else g
        (L.start_transition now, g)
      else (L, g)
    else enter_door_loop rest player_rect L g now

/-- `LevelLoader.try_enter_door()` on an existing player (sound feedback
dropped). -/
def LoaderSt.try_enter_door (L : LoaderSt) (p : Player) (g : Globals)
    (now : Time) : LoaderSt × Globals :=
  if L.transitioning then (L, g)
  else enter_door_loop L.doors p.get_rect L g now

/-- `LevelLoader._get_sword_rect()`: one tile next to the player in the facing
direction, only while attacking. -/
def get_sword_rect (p : Player) : Option Rect :=
  if p.state ≠ .attacking then none
  else if p.facing = .right then
    some { x := p.x + TILE_SIZE, y := p.y, w := TILE_SIZE, h := TILE_SIZE }
  else
    some { x := p.x - TILE_SIZE, y := p.y, w := TILE_SIZE, h := TILE_SIZE }

/-- Pickup pass of `_check_collisions`: the first overlapping uncollected
pickup is collected, then the scan stops (`break`). -/
def check_pickups (pickups : List Pickup) (pl : Player) (g : Globals) :
    List Pickup × Player × Globals :=
  match pickups with
  | [] => ([], pl, g)
  | pk :: rest =>
    if ! pk.collected && (pl.get_rect).colliderect pk.get_rect then
      let r := pk.collect pl g
      (r.2.1 :: rest, r.2.2.1, r.2.2.2)
    else
      let r := check_pickups rest pl g
      (pk :: r.1, r.2.1, r.2.2)

/-- Body of the player-vs-enemy pass: first overlapping enemy not in
hurt/dying damages the player, then `break`. -/
def player_enemy_loop (objs : List GObj) (pl : Player) (now : Time) :
    Player :=
  match objs with
  | [] => pl
  | obj :: rest =>
    if obj.state ≠ .hurt ∧ obj.state ≠ .dying ∧
       (pl.get_rect).colliderect obj.get_rect then
      (pl.take_damage 1 now).2
    else player_enemy_loop rest pl now

/-- Player-vs-enemy pass of `_check_collisions`, gated on
`invincible_timer <= 0`. -/
def check_player_enemy (objs : List GObj) (pl : Player) (now : Time) :
    Player :=
  if pl.invincible_timer ≤ 0 then player_enemy_loop objs pl now else pl

/-- Body of the sword-vs-enemy pass: the first overlapping enemy not in
hurt/dying takes damage; a non-boss enemy whose hit was accepted additionally
gets `start_death()`; then `break`. -/
def sword_loop (objs : List GObj) (sword_rect : Rect) (now : Time)
    (g : Globals) : List GObj × Globals :=
  match objs with
  | [] => ([], g)
  | obj :: rest =>
    if obj.state ≠ .hurt ∧ obj.state ≠ .dying ∧
       sword_rect.colliderect obj.get_rect then
      match obj with
      | .enemyObj e =>
        let r := e.take_damage now
        let e3 := if r.1 then r.2.start_death now else r.2
        (.enemyObj e3 :: rest, g)
      | .bossObj b =>
        let r := b.take_damage now g
        (.bossObj r.2.1 :: rest, r.2.2)
    else
      let r := sword_loop rest sword_rect now g
      (obj :: r.1, r.2)

/-- Sword-vs-enemy pass of `_check_collisions`, gated on the player being in
the attacking state. -/
def check_sword (objs : List GObj) (pl : Player) (now : Time) (g : Globals) :
    List GObj × Globals :=
  if pl.state = .attacking then
    match get_sword_rect pl with
    | none => (objs, g)
    | some r => sword_loop objs r now g
  else (objs, g)

/-- `LevelLoader._check_collisions()` on an existing player: the three passes
in source order (pickups, player-vs-enemy, sword-vs-enemy). -/
def check_collisions (pickups : List Pickup) (objs : List GObj) (pl : Player)
    (now : Time) (g : Globals) : List Pickup × List GObj × Player × Globals :=
  let r1 := check_pickups pickups pl g
  let pl3 := check_player_enemy objs r1.2.1 now
  let r2 := check_sword objs pl3 now r1.2.2
  (r1.1, r2.1, pl3, r2.2)

/-! ## Concrete scenario states used by the scenario claims -/

/-- Fresh global progress at the start of a new game. -/
def freshGlobals : Globals :=
  { score := 0, has_key := false, high_score := 0, hs_file := none,
    victory_freeze := false, victory_freeze_timer := 0 }

/-- C8 scenario: `Enemy(0, 0, "rat", "horizontal", blocks=2)`, created at
time 0, updated with `level_loader=None` (unobstructed). -/
def c8_e0 : Enemy := Enemy.init 0 0 "horizontal" 2 0

def c8_e1 : Enemy := c8_e0.update 30 none

def c8_e2 : Enemy := c8_e1.update 60 none

def c8_e3 : Enemy := c8_e2.update 359 none

def c8_e4 : Enemy := c8_e3.update 360 none

def c8_e5 : Enemy := c8_e4.update 390 none

/-- C1 scenario: fresh boss, hit at t=1.0s, updated at t=1.9s (hurt state
over), hit at t=2.0s, updated at t=2.9s, lethally hit at t=3.0s. -/
def c1_b0 : Boss := Boss.init 0 0 0

def c1_r1 : Bool × Boss × Globals := c1_b0.take_damage 100 freshGlobals

def c1_b1 : Boss := c1_r1.2.1.update 190 none

def c1_r2 : Bool × Boss × Globals := c1_b1.take_damage 200 c1_r1.2.2

def c1_b2 : Boss := c1_r2.2.1.update 290 none

def c1_r3 : Bool × Boss × Globals := c1_b2.take_damage 300 c1_r2.2.2

/-- C2 counterexample input: a player at 1 health (two accepted hits after a
fresh spawn), idle, no invincibility. -/
def c2_player : Player := { Player.init 0 0 0 with health := 1 }

/-! ## Claim theorems -/

/-- Claim C4: for every entity (player, enemy, boss), `take_damage` while an
invincibility timer is active or while in the hurt or dying state is rejected:
it returns `False` and leaves the entire entity state (health included) and
the globals unchanged. -/
theorem take_damage_rejected_in_protected_states (p : Player) (e : Enemy)
    (b : Boss) (damage : Int) (now : Time) (g : Globals) :
    (0 < p.invincible_timer ∨ p.state = .hurt ∨ p.state = .dying →
      p.take_damage damage now = (false, p)) ∧
    (e.state = .hurt ∨ e.state = .dying → e.take_damage now = (false, e)) ∧
    (b.state = .hurt ∨ b.state = .dying → b.take_damage now g = (false, b, g)) := by
  refine ⟨fun h => ?_, fun h => ?_, fun h => ?_⟩
  · unfold Player.take_damage
    rw [if_pos h]
  · unfold Enemy.take_damage
    rw [if_pos h]
  · unfold Boss.take_damage
    rw [if_pos h]

/-- A hurt player, a dying enemy and a hurt boss used to witness C4. -/
def c4_player : Player := { Player.init 0 0 0 with state := .hurt }

def c4_enemy : Enemy := { Enemy.init 0 0 "horizontal" 2 0 with state := .dying }

def c4_boss : Boss := { Boss.init 0 0 0 with state := .hurt }

/-- Witness for C4 at concrete protected states. -/
theorem take_damage_rejected_in_protected_states_witness :
    ((0 < c4_player.invincible_timer ∨ c4_player.state = .hurt ∨
        c4_player.state = .dying) ∧
      c4_player.take_damage 1 7 = (false, c4_player)) ∧
    ((c4_enemy.state = .hurt ∨ c4_enemy.state = .dying) ∧
      c4_enemy.take_damage 7 = (false, c4_enemy)) ∧
    ((c4_boss.state = .hurt ∨ c4_boss.state = .dying) ∧
      c4_boss.take_damage 7 freshGlobals = (false, c4_boss, freshGlobals)) :=
  ⟨⟨by decide,
    (take_damage_rejected_in_protected_states c4_player c4_enemy c4_boss 1 7
      freshGlobals).1 (by decide)⟩,
   ⟨by decide,
    (take_damage_rejected_in_protected_states c4_player c4_enemy c4_boss 1 7
      freshGlobals).2.1 (by decide)⟩,
   ⟨by decide,
    (take_damage_rejected_in_protected_states c4_player c4_enemy c4_boss 1 7
      freshGlobals).2.2 (by decide)⟩⟩

/-- Claim C2 (counterexample): `Player.take_damage` subtracts the full damage
amount, so a damage amount of 2 against a player at 1 health is accepted and
drives health to -1 — strictly below zero.  (The transition to dying still
happens, but health does pass below 0, contradicting the claim as stated for
arbitrary damage amounts.) -/
theorem health_negative_counterexample :
    (c2_player.take_damage 2 0).1 = true ∧
    (c2_player.take_damage 2 0).2.health = -1 ∧
    (c2_player.take_damage 2 0).2.health < 0 ∧
    (c2_player.take_damage 2 0).2.state = .dying := by decide

/-- Claim C2 (amended): for the damage amount 1 — the only amount the game
ever passes, and the boss's fixed decrement — an entity satisfying the health
invariant (health nonnegative, and zero health only in the dying state) keeps
health nonnegative under `take_damage`, and health reaching exactly 0 puts the
entity in the dying/defeated state. -/
theorem health_never_negative_amended (p : Player) (b : Boss) (now : Time)
    (g : Globals) :
    (0 ≤ p.health → (p.health = 0 → p.state = .dying) →
      0 ≤ (p.take_damage 1 now).2.health ∧
      ((p.take_damage 1 now).2.health = 0 →
        (p.take_damage 1 now).2.state = .dying)) ∧
    (0 ≤ b.current_health → (b.current_health = 0 → b.state = .dying) →
      0 ≤ (b.take_damage now g).2.1.current_health ∧
      ((b.take_damage now g).2.1.current_health = 0 →
        (b.take_damage now g).2.1.state = .dying)) := by
  constructor
  · intro h0 hz
    by_cases hrej : 0 < p.invincible_timer ∨ p.state = .hurt ∨ p.state = .dying
    · unfold Player.take_damage
      rw [if_pos hrej]
      exact ⟨h0, hz⟩
    · have hstate : p.state ≠ .dying := fun hd => hrej (Or.inr (Or.inr hd))
      have hne : p.health ≠ 0 := fun hh => hstate (hz hh)
      have h1 : 1 ≤ p.health := by omega
      unfold Player.take_damage
      rw [if_neg hrej]
      simp only [Player.start_death, Player.start_hurt]
      by_cases hle : p.health - 1 ≤ 0
      · simp only [hle, if_pos, if_true]
        constructor
        · omega
        · intro _
          trivial
      · rw [if_neg (by simpa using hle)]
        constructor
        · show (0 : Int) ≤ p.health - 1
          omega
        · intro hcontra
          exact absurd (show p.health - 1 = 0 from hcontra) (by omega)
  · intro h0 hz
    by_cases hrej : b.state = .hurt ∨ b.state = .dying
    · unfold Boss.take_damage
      rw [if_pos hrej]
      exact ⟨h0, hz⟩
    · have hstate : b.state ≠ .dying := fun hd => hrej (Or.inr hd)
      have hne : b.current_health ≠ 0 := fun hh => hstate (hz hh)
      have h1 : 1 ≤ b.current_health := by omega
      unfold Boss.take_damage
      rw [if_neg hrej]
      simp only [Boss.start_defeat]
      by_cases hle : b.current_health - 1 ≤ 0
      · simp only [hle, if_pos, if_true]
        constructor
        · omega
        · intro _
          trivial
      · rw [if_neg (by simpa using hle)]
        constructor
        · show (0 : Int) ≤ b.current_health - 1
          omega
        · intro hcontra
          exact absurd (show b.current_health - 1 = 0 from hcontra) (by omega)

/-- Witness for C2 (amended) at a fresh player and fresh boss. -/
theorem health_never_negative_amended_witness :
    (0 ≤ (Player.init 0 0 0).health ∧
      0 ≤ ((Player.init 0 0 0).take_damage 1 5).2.health) ∧
    (0 ≤ (Boss.init 0 0 0).current_health ∧
      0 ≤ ((Boss.init 0 0 0).take_damage 5 freshGlobals).2.1.current_health) :=
  ⟨⟨by decide,
    ((health_never_negative_amended (Player.init 0 0 0) (Boss.init 0 0 0) 5
      freshGlobals).1 (by decide) (by decide)).1⟩,
   ⟨by decide,
    ((health_never_negative_amended (Player.init 0 0 0) (Boss.init 0 0 0) 5
      freshGlobals).2 (by decide) (by decide)).1⟩⟩

/-! ### High score round trip (C9) helper lemmas -/

theorem digitVal_digitCh {d : Nat} (hd : d < 10) : digitVal (digitCh d) = d :=
  (by decide : ∀ d : Nat, d < 10 → digitVal (digitCh d) = d) d hd

theorem isDigitCh_digitCh {d : Nat} (hd : d < 10) : isDigitCh (digitCh d) = true :=
  (by decide : ∀ d : Nat, d < 10 → isDigitCh (digitCh d) = true) d hd

theorem natChars_ne_nil (n : Nat) : natChars n ≠ [] := by
  unfold natChars
  by_cases h : n = 0
  · simp [h]
  · simp [h, Nat.digits_ne_nil_iff_ne_zero.mpr h]

theorem natChars_all_digit (n : Nat) : (natChars n).all isDigitCh = true := by
  unfold natChars
  by_cases h : n = 0
  · simp only [h, if_pos]
    decide
  · rw [if_neg h, List.all_eq_true]
    intro c hc
    rw [List.mem_reverse, List.mem_map] at hc
    obtain ⟨d, hd, rfl⟩ := hc
    exact isDigitCh_digitCh (Nat.digits_lt_base (by norm_num) hd)

theorem map_digitVal_digitCh (l : List Nat) (hl : ∀ d ∈ l, d < 10) :
    l.map (digitVal ∘ digitCh) = l := by
  induction l with
  | nil => rfl
  | cons d rest ih =>
    rw [List.map_cons, ih (fun x hx => hl x (List.mem_cons_of_mem _ hx)),
        Function.comp_apply, digitVal_digitCh (hl d (List.mem_cons_self _ _))]

theorem parseNatChars_natChars (n : Nat) : parseNatChars (natChars n) = some n := by
  unfold parseNatChars
  rw [if_neg]
  · congr 1
    by_cases h : n = 0
    · subst h
      decide
    · have hch : natChars n = ((Nat.digits 10 n).map digitCh).reverse := by
        unfold natChars
        rw [if_neg h]
      rw [hch, List.map_reverse, List.reverse_reverse, List.map_map,
          map_digitVal_digitCh _
            (fun d hd => Nat.digits_lt_base (by norm_num) hd),
          Nat.ofDigits_digits]
  · rw [Bool.or_eq_true, not_or]
    constructor
    · simp [List.isEmpty_iff, natChars_ne_nil n]
    · simp [natChars_all_digit n]

theorem not_space_of_digit {c : Char} (h : isDigitCh c = true) :
    isSpaceCh c = false := by
  simp only [isDigitCh, Bool.and_eq_true, decide_eq_true_eq] at h
  simp only [isSpaceCh, Bool.or_eq_false_iff, decide_eq_false_iff_not]
  omega

theorem dropWhile_eq_self_of_no_space {l : List Char}
    (h : l.all (fun c => ! isSpaceCh c) = true) :
    l.dropWhile isSpaceCh = l := by
  cases l with
  | nil => rfl
  | cons c cs =>
    rw [List.all_cons, Bool.and_eq_true] at h
    rw [List.dropWhile_cons, if_neg]
    intro hc
    rw [hc] at h
    simp at h

theorem stripChars_eq_self {l : List Char}
    (h : l.all (fun c => ! isSpaceCh c) = true) : stripChars l = l := by
  unfold stripChars
  rw [dropWhile_eq_self_of_no_space h,
      dropWhile_eq_self_of_no_space (by rwa [List.all_reverse]),
      List.reverse_reverse]

theorem natChars_no_space (n : Nat) :
    (natChars n).all (fun c => ! isSpaceCh c) = true := by
  have h := natChars_all_digit n
  rw [List.all_eq_true] at h ⊢
  intro c hc
  simp [not_space_of_digit (h c hc)]

theorem pyStr_no_space (n : Int) :
    (pyStr n).all (fun c => ! isSpaceCh c) = true := by
  unfold pyStr
  by_cases h : n < 0
  · rw [if_pos h, List.all_cons, Bool.and_eq_true]
    exact ⟨by decide, natChars_no_space _⟩
  · rw [if_neg h]
    exact natChars_no_space _

theorem pyInt_pyStr (n : Int) : pyInt (pyStr n) = some n := by
  by_cases hn : n < 0
  · have hrepr : pyStr n = Char.ofNat 45 :: natChars n.natAbs := by
      unfold pyStr
      rw [if_pos hn]
    rw [hrepr]
    show (if (Char.ofNat 45).toNat = 45 then
        (parseNatChars (natChars n.natAbs)).map (fun m : Nat => -(m : Int))
      else if (Char.ofNat 45).toNat = 43 then
        (parseNatChars (natChars n.natAbs)).map (fun m : Nat => (m : Int))
      else (parseNatChars (Char.ofNat 45 :: natChars n.natAbs)).map
        (fun m : Nat => (m : Int))) = some n
    rw [if_pos (by decide), parseNatChars_natChars, Option.map_some']
    congr 1
    omega
  · have hrepr : pyStr n = natChars n.natAbs := by
      unfold pyStr
      rw [if_neg hn]
    obtain ⟨c, cs, hcons⟩ : ∃ c cs, natChars n.natAbs = c :: cs := by
      cases hx : natChars n.natAbs with
      | nil => exact absurd hx (natChars_ne_nil _)
      | cons c cs => exact ⟨c, cs, rfl⟩
    have hdig : isDigitCh c = true := by
      have h := natChars_all_digit n.natAbs
      rw [hcons, List.all_cons, Bool.and_eq_true] at h
      exact h.1
    have hc48 : 48 ≤ c.toNat ∧ c.toNat ≤ 57 := by
      simpa [isDigitCh] using hdig
    rw [hrepr, hcons]
    show (if c.toNat = 45 then (parseNatChars cs).map (fun m : Nat => -(m : Int))
      else if c.toNat = 43 then (parseNatChars cs).map (fun m : Nat => (m : Int))
      else (parseNatChars (c :: cs)).map (fun m : Nat => (m : Int))) = some n
    rw [if_neg (by omega), if_neg (by omega), ← hcons,
        parseNatChars_natChars, Option.map_some']
    congr 1
    omega

/-- Claim C9: saving any high-score integer and loading it back yields the same
integer, and loading from a missing or corrupt high-score source yields 0. -/
theorem high_score_round_trip :
    (∀ n : Int, load_high_score (save_high_score n) = n) ∧
    load_high_score none = 0 ∧
    (∀ s : List Char, pyInt (stripChars s) = none →
      load_high_score (some s) = 0) := by
  refine ⟨fun n => ?_, rfl, fun s hs => ?_⟩
  · show (pyInt (stripChars (pyStr n))).getD 0 = n
    rw [stripChars_eq_self (pyStr_no_space n), pyInt_pyStr]
    rfl
  · show (pyInt (stripChars s)).getD 0 = 0
    rw [hs]
    rfl

/-- Witness for C9 on a corrupt file content (the two letters of "hi"). -/
theorem high_score_round_trip_witness :
    pyInt (stripChars [Char.ofNat 104, Char.ofNat 105]) = none ∧
    load_high_score (some [Char.ofNat 104, Char.ofNat 105]) = 0 :=
  ⟨by decide,
   high_score_round_trip.2.2 [Char.ofNat 104, Char.ofNat 105] (by decide)⟩

/-! ### Animation engine invariants (C7) -/

/-- Characterization of `AnimationManager.update` when the current clip is
known. -/
theorem AnimationManager.update_eq_of_current (m : AnimationManager)
    (now : Time) (name : String) (anim : AnimClip)
    (hcur : m.current_anim = some name)
    (hlook : lookupAnim m.animations name = some anim) :
    m.update now =
      if m.finished ∨ m.paused then m
      else if anim.duration ≤ now - m.last_update then
        if (anim.frames.length : Int) ≤ m.frame_idx + 1 then
          if anim.loop then { m with frame_idx := 0, last_update := now }
          else { m with frame_idx := (anim.frames.length : Int) - 1,
                        last_update := now, finished := true }
        else { m with frame_idx := m.frame_idx + 1, last_update := now }
      else m := by
  unfold AnimationManager.update
  rw [hcur]
  simp only [hlook]

/-- Claim C7: for the active clip of an animation manager — a looping clip's
frame index stays inside `[0, frameCount)` across `update`; a non-looping
clip, on advancing past its final frame, clamps the index to the last frame
and sets `finished`; a finished manager is left entirely unchanged by
`update` (so `finished` becomes true exactly once); and only an explicit
(re)start through `play` clears `finished` (resetting the index to 0). -/
theorem animation_frame_invariants (m : AnimationManager) (now : Time)
    (name : String) (anim : AnimClip)
    (hcur : m.current_anim = some name)
    (hlook : lookupAnim m.animations name = some anim)
    (hne : anim.frames ≠ []) :
    (anim.loop = true → 0 ≤ m.frame_idx →
      m.frame_idx < (anim.frames.length : Int) →
      0 ≤ (m.update now).frame_idx ∧
      (m.update now).frame_idx < (anim.frames.length : Int)) ∧
    (anim.loop = false → m.finished = false → m.paused = false →
      anim.duration ≤ now - m.last_update →
      (anim.frames.length : Int) ≤ m.frame_idx + 1 →
      (m.update now).frame_idx = (anim.frames.length : Int) - 1 ∧
      (m.update now).finished = true) ∧
    (m.finished = true → m.update now = m) ∧
    (∀ name2 clip2, lookupAnim m.animations name2 = some clip2 →
      (m.play name2 true now).finished = false ∧
      (m.play name2 true now).frame_idx = 0) := by
  have hpos : 0 < (anim.frames.length : Int) := by
    have := List.length_pos.mpr hne
    omega
  rw [AnimationManager.update_eq_of_current m now name anim hcur hlook]
  refine ⟨fun hloop h0 hlt => ?_, fun hloop hfin hpau hdur hge => ?_,
    fun hfin => ?_, fun name2 clip2 hl2 => ?_⟩
  · by_cases hfp : m.finished = true ∨ m.paused = true
    · rw [if_pos hfp]
      exact ⟨h0, hlt⟩
    · rw [if_neg hfp]
      by_cases hdur : anim.duration ≤ now - m.last_update
      · rw [if_pos hdur]
        by_cases hfc : (anim.frames.length : Int) ≤ m.frame_idx + 1
        · rw [if_pos hfc, if_pos hloop]
          exact ⟨le_refl 0, hpos⟩
        · rw [if_neg hfc]
          constructor
          · show (0 : Int) ≤ m.frame_idx + 1
            omega
          · show m.frame_idx + 1 < (anim.frames.length : Int)
            omega
      · rw [if_neg hdur]
        exact ⟨h0, hlt⟩
  · rw [if_neg (by simp [hfin, hpau]), if_pos hdur, if_pos hge, hloop]
    exact ⟨rfl, rfl⟩
  · rw [if_pos (Or.inl hfin)]
  · unfold AnimationManager.play
    rw [hl2]
    rw [if_pos (Or.inr rfl)]
    exact ⟨rfl, rfl⟩

/-- A concrete manager playing the looping `idle_right` clip, for the C7
witness. -/
def c7_m : AnimationManager :=
  (AnimationManager.init PLAYER_ANIMATIONS).play "idle_right" true 0

/-- Witness for C7 on the player's looping idle clip. -/
theorem animation_frame_invariants_witness :
    (c7_m.current_anim = some "idle_right" ∧
      lookupAnim c7_m.animations "idle_right" =
        some { frames := [(0, 0), (0, 1), (0, 2)], duration := 60, loop := true } ∧
      ({ frames := [(0, 0), (0, 1), (0, 2)], duration := 60, loop := true }
        : AnimClip).frames ≠ []) ∧
    0 ≤ (c7_m.update 60).frame_idx ∧ (c7_m.update 60).frame_idx < 3 :=
  ⟨⟨by decide, by decide, by decide⟩,
   ((animation_frame_invariants c7_m 60 "idle_right"
      { frames := [(0, 0), (0, 1), (0, 2)], duration := 60, loop := true }
      (by decide) (by decide) (by decide)).1 rfl (by decide) (by decide)).1,
   ((animation_frame_invariants c7_m 60 "idle_right"
      { frames := [(0, 0), (0, 1), (0, 2)], duration := 60, loop := true }
      (by decide) (by decide) (by decide)).1 rfl (by decide) (by decide)).2⟩

/-! ### Door interaction (C5) -/

/-- The door loop is decided by the first door colliding with the player. -/
theorem enter_door_loop_of_find (doors : List Door) (rect : Rect)
    (L : LoaderSt) (g : Globals) (now : Time) (d : Door)
    (hfind : doors.find? (fun dd => dd.check_collision rect) = some d) :
    enter_door_loop doors rect L g now =
      if d.can_enter g.has_key then
        (L.start_transition now,
         if d.locked ∧ g.has_key then { g with has_key := false } else g)
      else (L, g) := by
  induction doors with
  | nil => simp at hfind
  | cons dd rest ih =>
    by_cases hc : dd.check_collision rect = true
    · simp only [List.find?_cons, hc] at hfind
      injection hfind with hd
      subst hd
      unfold enter_door_loop
      rw [if_pos hc]
    · rw [Bool.not_eq_true] at hc
      simp only [List.find?_cons, hc] at hfind
      unfold enter_door_loop
      rw [if_neg (by simp [hc])]
      exact ih hfind

/-- Claim C5: when the player overlaps a door (the first overlapping one
decides), an unlocked door always starts the transition and leaves the key
flag alone; a locked door starts the transition exactly when the key flag is
set, consuming the key on success; a locked door without the key changes
nothing at all. -/
theorem door_entry_rules (L : LoaderSt) (p : Player) (g : Globals)
    (now : Time) (d : Door)
    (htrans : L.transitioning = false)
    (hfind : L.doors.find? (fun dd => dd.check_collision p.get_rect) = some d) :
    (d.locked = false →
      (L.try_enter_door p g now).1.transitioning = true ∧
      (L.try_enter_door p g now).2 = g) ∧
    (d.locked = true → g.has_key = true →
      (L.try_enter_door p g now).1.transitioning = true ∧
      (L.try_enter_door p g now).2.has_key = false ∧
      (L.try_enter_door p g now).2.score = g.score) ∧
    (d.locked = true → g.has_key = false →
      L.try_enter_door p g now = (L, g)) ∧
    (d.locked = true →
      ((L.try_enter_door p g now).1.transitioning = true ↔
        g.has_key = true)) := by
  have hloop : L.try_enter_door p g now =
      enter_door_loop L.doors p.get_rect L g now := by
    unfold LoaderSt.try_enter_door
    rw [if_neg (by simp [htrans])]
  rw [hloop, enter_door_loop_of_find L.doors p.get_rect L g now d hfind]
  refine ⟨fun hlock => ?_, fun hlock hk => ?_, fun hlock hk => ?_,
    fun hlock => ?_⟩
  · simp [Door.can_enter, hlock, LoaderSt.start_transition, htrans]
  · simp [Door.can_enter, hlock, hk, LoaderSt.start_transition, htrans]
  · simp [Door.can_enter, hlock, hk]
  · by_cases hk : g.has_key = true
    · simp [Door.can_enter, hlock, hk, LoaderSt.start_transition, htrans]
    · simp only [Bool.not_eq_true] at hk
      simp [Door.can_enter, hlock, hk, htrans]

/-- A locked door sitting on the player spawn tile, for the C5 witness. -/
def c5_door : Door := Door.init 0 0 16 16 true

/-- A one-tile level containing only `c5_door`, for the C5 witness. -/
def c5_loader : LoaderSt :=
  { collision_grid := [[false]], _level_width := 16, _level_height := 16,
    transitioning := false, transition_timer := 0, transition_duration := 50,
    doors := [c5_door] }

/-- Globals in which the player holds the key, for the C5 witness. -/
def c5_globals : Globals := { freshGlobals with has_key := true }

/-- Witness for C5: passing the locked door with the key starts the
transition and consumes the key. -/
theorem door_entry_rules_witness :
    (c5_loader.transitioning = false ∧
      c5_loader.doors.find?
        (fun dd => dd.check_collision (Player.init 0 0 0).get_rect) =
        some c5_door ∧
      c5_door.locked = true ∧ c5_globals.has_key = true) ∧
    (c5_loader.try_enter_door (Player.init 0 0 0) c5_globals 9).1.transitioning
      = true ∧
    (c5_loader.try_enter_door (Player.init 0 0 0) c5_globals 9).2.has_key
      = false :=
  ⟨⟨rfl, by decide, rfl, rfl⟩,
   ((door_entry_rules c5_loader (Player.init 0 0 0) c5_globals 9 c5_door
      rfl (by decide)).2.1 rfl rfl).1,
   ((door_entry_rules c5_loader (Player.init 0 0 0) c5_globals 9 c5_door
      rfl (by decide)).2.1 rfl rfl).2.1⟩

/-! ### Pickup collection (C6) -/

/-- An accepted `collect` always flips exactly the `collected` flag of the
pickup itself. -/
theorem collect_sets_collected (pk : Pickup) (pl : Player) (g : Globals)
    (h : pk.collected = false) :
    (pk.collect pl g).2.1 = { pk with collected := true } := by
  unfold Pickup.collect
  rw [if_neg (by simp [h])]
  dsimp only []
  split_ifs <;> rfl

/-- `collect` on an uncollected coin: accepted, flag set, score +10, player
untouched. -/
theorem collect_coin (pk : Pickup) (pl : Player) (g : Globals)
    (h1 : pk.collected = false) (h2 : pk.pickup_type = "coin") :
    pk.collect pl g =
      (true, { pk with collected := true }, pl,
       { g with score := g.score + 10 }) := by
  unfold Pickup.collect
  rw [if_neg (by simp [h1])]
  simp only []
  rw [if_pos (by simpa using h2)]

/-- The pickup pass collects exactly the first qualifying pickup and stops. -/
theorem check_pickups_split (pre : List Pickup) (pk : Pickup)
    (post : List Pickup) (pl : Player) (g : Globals)
    (hpre : ∀ q ∈ pre,
      (!q.collected && (pl.get_rect).colliderect q.get_rect) = false)
    (hpk : (!pk.collected && (pl.get_rect).colliderect pk.get_rect) = true) :
    check_pickups (pre ++ pk :: post) pl g =
      (pre ++ (pk.collect pl g).2.1 :: post, (pk.collect pl g).2.2.1,
       (pk.collect pl g).2.2.2) := by
  induction pre with
  | nil =>
    simp only [List.nil_append]
    unfold check_pickups
    rw [if_pos hpk]
  | cons q rest ih =>
    have hq := hpre q (List.mem_cons_self _ _)
    simp only [List.cons_append]
    unfold check_pickups
    rw [if_neg (by simp [hq])]
    rw [ih (fun x hx => hpre x (List.mem_cons_of_mem _ hx))]

/-- A tick in which no uncollected pickup overlaps the player changes
nothing. -/
theorem check_pickups_no_hit (ps : List Pickup) (pl : Player) (g : Globals)
    (h : ∀ q ∈ ps,
      (!q.collected && (pl.get_rect).colliderect q.get_rect) = false) :
    check_pickups ps pl g = (ps, pl, g) := by
  induction ps with
  | nil => rfl
  | cons q rest ih =>
    unfold check_pickups
    rw [if_neg (by simp [h q (List.mem_cons_self _ _)])]
    rw [ih (fun x hx => h x (List.mem_cons_of_mem _ hx))]

/-- An already-collected pickup is passed over with no effect on the player,
the globals, or itself. -/
theorem check_pickups_skips_collected (pk : Pickup) (ps : List Pickup)
    (pl : Player) (g : Globals) (h : pk.collected = true) :
    check_pickups (pk :: ps) pl g =
      (pk :: (check_pickups ps pl g).1, (check_pickups ps pl g).2.1,
       (check_pickups ps pl g).2.2) := by
  conv_lhs => rw [check_pickups]
  rw [if_neg (by simp [h])]

/-- At most one pickup becomes collected per tick. -/
theorem check_pickups_at_most_one (ps : List Pickup) (pl : Player)
    (g : Globals) :
    (check_pickups ps pl g).1.countP (fun q => q.collected) ≤
      ps.countP (fun q => q.collected) + 1 := by
  induction ps with
  | nil => simp [check_pickups]
  | cons q rest ih =>
    by_cases hcond : (!q.collected && (pl.get_rect).colliderect q.get_rect) = true
    · have hqc : q.collected = false := by
        rw [Bool.and_eq_true] at hcond
        simpa using hcond.1
      unfold check_pickups
      rw [if_pos hcond]
      simp only [List.countP_cons, collect_sets_collected q pl g hqc]
      simp [hqc]
    · unfold check_pickups
      rw [if_neg hcond]
      simp only [List.countP_cons]
      omega

/-- Claim C6: on the first tick in which the player overlaps an uncollected
coin (as the first qualifying pickup), the score rises by exactly 10 and that
pickup's `collected` flag becomes true, with all other pickups and the player
untouched; a collected pickup is passed over with no effect on later ticks; a
tick with no qualifying pickup changes nothing; and each tick collects at most
one pickup. -/
theorem coin_pickup_collection (pre post : List Pickup) (pk : Pickup)
    (pl : Player) (g : Globals)
    (hpre : ∀ q ∈ pre,
      (!q.collected && (pl.get_rect).colliderect q.get_rect) = false)
    (hunc : pk.collected = false)
    (hover : (pl.get_rect).colliderect pk.get_rect = true)
    (hcoin : pk.pickup_type = "coin") :
    check_pickups (pre ++ pk :: post) pl g =
      (pre ++ { pk with collected := true } :: post, pl,
       { g with score := g.score + 10 }) ∧
    (∀ (ps : List Pickup) (pl2 : Player) (g2 : Globals),
      (∀ q ∈ ps,
        (!q.collected && (pl2.get_rect).colliderect q.get_rect) = false) →
      check_pickups ps pl2 g2 = (ps, pl2, g2)) ∧
    (∀ (pk2 : Pickup) (ps : List Pickup) (pl2 : Player) (g2 : Globals),
      pk2.collected = true →
      check_pickups (pk2 :: ps) pl2 g2 =
        (pk2 :: (check_pickups ps pl2 g2).1, (check_pickups ps pl2 g2).2.1,
         (check_pickups ps pl2 g2).2.2)) ∧
    (∀ (ps : List Pickup) (pl2 : Player) (g2 : Globals),
      (check_pickups ps pl2 g2).1.countP (fun q => q.collected) ≤
        ps.countP (fun q => q.collected) + 1) := by
  refine ⟨?_, check_pickups_no_hit, check_pickups_skips_collected,
    check_pickups_at_most_one⟩
  rw [check_pickups_split pre pk post pl g hpre (by simp [hunc, hover]),
      collect_coin pk pl g hunc hcoin]

/-- A coin pickup on the player's tile, for the C6 witness. -/
def c6_pickup : Pickup := Pickup.init 0 0 "coin" 0

/-- Witness for C6: the one-coin scenario — first tick collects (+10), the
second tick over the now-collected pickup changes nothing. -/
theorem coin_pickup_collection_witness :
    (c6_pickup.collected = false ∧
      ((Player.init 0 0 0).get_rect).colliderect c6_pickup.get_rect = true ∧
      c6_pickup.pickup_type = "coin") ∧
    check_pickups [c6_pickup] (Player.init 0 0 0) freshGlobals =
      ([{ c6_pickup with collected := true }], Player.init 0 0 0,
       { freshGlobals with score := freshGlobals.score + 10 }) ∧
    check_pickups [{ c6_pickup with collected := true }] (Player.init 0 0 0)
        { freshGlobals with score := freshGlobals.score + 10 } =
      ([{ c6_pickup with collected := true }], Player.init 0 0 0,
       { freshGlobals with score := freshGlobals.score + 10 }) :=
  ⟨⟨rfl, by decide, rfl⟩,
   (coin_pickup_collection [] [] c6_pickup (Player.init 0 0 0) freshGlobals
      (by simp) rfl (by decide) rfl).1,
   (coin_pickup_collection [] [] c6_pickup (Player.init 0 0 0) freshGlobals
      (by simp) rfl (by decide) rfl).2.1
     [{ c6_pickup with collected := true }] (Player.init 0 0 0)
     { freshGlobals with score := freshGlobals.score + 10 }
     (by decide)⟩

/-! ### Non-boss enemies die from one accepted sword hit (C10) -/

/-- `Enemy.take_damage` touches only `state`, `state_timer` and the animation
state — there is no health counter on `Enemy` and nothing else changes. -/
theorem enemy_take_damage_fields (e : Enemy) (now : Time) :
    (e.take_damage now).2.x = e.x ∧
    (e.take_damage now).2.y = e.y ∧
    (e.take_damage now).2.start_x = e.start_x ∧
    (e.take_damage now).2.start_y = e.start_y ∧
    (e.take_damage now).2.facing = e.facing ∧
    (e.take_damage now).2.movement_type = e.movement_type ∧
    (e.take_damage now).2.blocks = e.blocks ∧
    (e.take_damage now).2.blocks_moved = e.blocks_moved ∧
    (e.take_damage now).2.last_move = e.last_move ∧
    (e.take_damage now).2.move_cooldown = e.move_cooldown := by
  unfold Enemy.take_damage
  split_ifs <;> exact ⟨rfl, rfl, rfl, rfl, rfl, rfl, rfl, rfl, rfl, rfl⟩

/-- The sword pass hits exactly the first qualifying registry entry. -/
theorem sword_loop_split (pre post : List GObj) (obj : GObj) (rect : Rect)
    (now : Time) (g : Globals)
    (hpre : ∀ o ∈ pre, ¬(o.state ≠ .hurt ∧ o.state ≠ .dying ∧
      rect.colliderect o.get_rect = true)) :
    obj.state ≠ .hurt → obj.state ≠ .dying →
    rect.colliderect obj.get_rect = true →
    sword_loop (pre ++ obj :: post) rect now g =
      (pre ++
        (match obj with
         | .enemyObj e =>
           GObj.enemyObj (if (e.take_damage now).1 then
             ((e.take_damage now).2).start_death now else (e.take_damage now).2)
         | .bossObj b => GObj.bossObj (b.take_damage now g).2.1) :: post,
       match obj with
       | .enemyObj _ => g
       | .bossObj b => (b.take_damage now g).2.2) := by
  intro h1 h2 h3
  induction pre with
  | nil =>
    simp only [List.nil_append]
    rw [sword_loop.eq_def]
    dsimp only []
    rw [if_pos ⟨h1, h2, h3⟩]
    cases obj with
    | enemyObj e => rfl
    | bossObj b => rfl
  | cons q rest ih =>
    have hq := hpre q (List.mem_cons_self _ _)
    simp only [List.cons_append]
    rw [sword_loop.eq_def]
    dsimp only []
    rw [if_neg hq]
    rw [ih (fun x hx => hpre x (List.mem_cons_of_mem _ hx))]

/-- Claim C10: non-boss enemies die from a single accepted sword hit.
`Enemy.take_damage` decrements no health counter (the `Enemy` record has
none; everything but `state`, `state_timer` and the animation is preserved),
a hit is accepted exactly when the enemy is not hurt/dying, and the sword pass
immediately follows an accepted hit on a non-boss enemy with `start_death`,
leaving it in the dying state in the same tick. -/
theorem enemy_one_hit_death (e : Enemy) (now : Time) (pre post : List GObj)
    (rect : Rect) (g : Globals) :
    ((e.take_damage now).2.x = e.x ∧ (e.take_damage now).2.y = e.y ∧
      (e.take_damage now).2.facing = e.facing ∧
      (e.take_damage now).2.blocks = e.blocks ∧
      (e.take_damage now).2.blocks_moved = e.blocks_moved) ∧
    ((e.take_damage now).1 = true ↔ (e.state ≠ .hurt ∧ e.state ≠ .dying)) ∧
    ((∀ o ∈ pre, ¬(o.state ≠ .hurt ∧ o.state ≠ .dying ∧
        rect.colliderect o.get_rect = true)) →
      e.state ≠ .hurt → e.state ≠ .dying →
      rect.colliderect e.get_rect = true →
      sword_loop (pre ++ GObj.enemyObj e :: post) rect now g =
        (pre ++ GObj.enemyObj (((e.take_damage now).2).start_death now) :: post,
         g) ∧
      (((e.take_damage now).2).start_death now).state = EState.dying) := by
  refine ⟨?_, ?_, fun hpre h1 h2 h3 => ⟨?_, rfl⟩⟩
  · have h := enemy_take_damage_fields e now
    exact ⟨h.1, h.2.1, h.2.2.2.2.1, h.2.2.2.2.2.2.1, h.2.2.2.2.2.2.2.1⟩
  · unfold Enemy.take_damage
    constructor
    · intro hacc
      by_contra hcon
      rw [Decidable.not_and_iff_or_not, not_not, not_not] at hcon
      rw [if_pos (by tauto)] at hacc
      exact Bool.false_ne_true hacc
    · intro hcon
      rw [if_neg (by tauto)]
  · have hsplit := sword_loop_split pre post (GObj.enemyObj e) rect now g hpre
      (by simpa [GObj.state] using h1) (by simpa [GObj.state] using h2)
      (by simpa [GObj.get_rect] using h3)
    rw [hsplit]
    have hacc : (e.take_damage now).1 = true := by
      unfold Enemy.take_damage
      rw [if_neg (by tauto)]
    simp only [hacc, if_pos, if_true]

/-- A fresh enemy next to an attacking player, plus one hurt enemy scanned
first, for the C10 witness. -/
def c10_enemy : Enemy := Enemy.init 16 0 "horizontal" 2 0

def c10_hurt_enemy : Enemy :=
  { Enemy.init 48 0 "horizontal" 2 0 with state := .hurt }

/-- Witness for C10: the sword tile covers both enemies; the hurt one is
skipped, the fresh one is killed in the same tick. -/
theorem enemy_one_hit_death_witness :
    (c10_enemy.state ≠ EState.hurt ∧ c10_enemy.state ≠ EState.dying ∧
      (({ x := 16, y := 0, w := 16, h := 16 } : Rect)).colliderect
        c10_enemy.get_rect = true) ∧
    sword_loop [GObj.enemyObj c10_hurt_enemy, GObj.enemyObj c10_enemy]
        { x := 16, y := 0, w := 16, h := 16 } 44 freshGlobals =
      ([GObj.enemyObj c10_hurt_enemy,
        GObj.enemyObj (((c10_enemy.take_damage 44).2).start_death 44)],
       freshGlobals) ∧
    (((c10_enemy.take_damage 44).2).start_death 44).state = EState.dying :=
  ⟨⟨by decide, by decide, by decide⟩,
   ((enemy_one_hit_death c10_enemy 44 [GObj.enemyObj c10_hurt_enemy] []
      { x := 16, y := 0, w := 16, h := 16 } freshGlobals).2.2
      (by decide) (by decide) (by decide) (by decide)).1,
   ((enemy_one_hit_death c10_enemy 44 [GObj.enemyObj c10_hurt_enemy] []
      { x := 16, y := 0, w := 16, h := 16 } freshGlobals).2.2
      (by decide) (by decide) (by decide) (by decide)).2⟩

/-! ### Move rejection (C3) -/

/-- `Player.move` rejects with no mutation whenever the state gate or the
cooldown gate fails. -/
theorem player_move_rejected (p : Player) (dx dy w h : Int) (t : Time)
    (hcond : p.state = .attacking ∨ p.state = .hurt ∨ p.state = .dying ∨
      p.can_move t = false) :
    p.move dx dy w h t = (false, p) := by
  unfold Player.move
  rw [if_pos hcond]

/-- A tile-aligned point outside the level bounds is always reported blocked
(the grid spans the level exactly). -/
theorem is_position_blocked_oob (L : LoaderSt) (x y : Int)
    (hx : TILE_SIZE ∣ x) (hy : TILE_SIZE ∣ y)
    (hw : L._level_width = TILE_SIZE * ((L.collision_grid.headD []).length : Int))
    (hh : L._level_height = TILE_SIZE * (L.collision_grid.length : Int))
    (hoob : ¬ (0 ≤ x ∧ x ≤ L._level_width - TILE_SIZE ∧ 0 ≤ y ∧
      y ≤ L._level_height - TILE_SIZE)) :
    L.is_position_blocked x y = true := by
  obtain ⟨a, ha⟩ := hx
  obtain ⟨b, hb⟩ := hy
  have hTS : TILE_SIZE = 16 := rfl
  have hfa : x.fdiv TILE_SIZE = a := by
    rw [ha, hTS]
    exact Int.mul_fdiv_cancel_left a (by norm_num)
  have hfb : y.fdiv TILE_SIZE = b := by
    rw [hb, hTS]
    exact Int.mul_fdiv_cancel_left b (by norm_num)
  rw [ha, hb, hw, hh, hTS] at hoob
  unfold LoaderSt.is_position_blocked
  rw [hfa, hfb, if_pos]
  omega

/-- Claim C3: a player move request is rejected with the player state fully
unchanged whenever the destination tile is blocked, the player is attacking,
hurt or dying, less than 0.15 s have elapsed since the last accepted move, or
the destination is outside the level bounds (with the collision grid spanning
the level and the player tile-aligned). -/
theorem move_rejections (L : LoaderSt) (p : Player) (dx dy : Int) (t : Time) :
    (L.is_position_blocked (p.x + dx * TILE_SIZE) (p.y + dy * TILE_SIZE) = true →
      L.move_player p dx dy t = (false, p)) ∧
    (p.state = .attacking ∨ p.state = .hurt ∨ p.state = .dying →
      L.move_player p dx dy t = (false, p)) ∧
    (t - p.last_move < MOVEMENT_COOLDOWN →
      L.move_player p dx dy t = (false, p)) ∧
    (L._level_width = TILE_SIZE * ((L.collision_grid.headD []).length : Int) →
     L._level_height = TILE_SIZE * (L.collision_grid.length : Int) →
     TILE_SIZE ∣ p.x → TILE_SIZE ∣ p.y →
     ¬ (0 ≤ p.x + dx * TILE_SIZE ∧
        p.x + dx * TILE_SIZE ≤ L._level_width - TILE_SIZE ∧
        0 ≤ p.y + dy * TILE_SIZE ∧
        p.y + dy * TILE_SIZE ≤ L._level_height - TILE_SIZE) →
      L.move_player p dx dy t = (false, p)) := by
  have hreject1 : L.is_position_blocked (p.x + dx * TILE_SIZE)
      (p.y + dy * TILE_SIZE) = true → L.move_player p dx dy t = (false, p) := by
    intro h
    unfold LoaderSt.move_player
    rw [if_neg (by simp [h])]
  refine ⟨hreject1, fun h => ?_, fun h => ?_, fun hw hh hx hy hoob => ?_⟩
  · by_cases hb : L.is_position_blocked (p.x + dx * TILE_SIZE)
        (p.y + dy * TILE_SIZE) = true
    · exact hreject1 hb
    · unfold LoaderSt.move_player
      rw [Bool.not_eq_true] at hb
      rw [if_pos (by simp [hb])]
      exact player_move_rejected p dx dy _ _ t (by tauto)
  · by_cases hb : L.is_position_blocked (p.x + dx * TILE_SIZE)
        (p.y + dy * TILE_SIZE) = true
    · exact hreject1 hb
    · unfold LoaderSt.move_player
      rw [Bool.not_eq_true] at hb
      rw [if_pos (by simp [hb])]
      refine player_move_rejected p dx dy _ _ t (Or.inr (Or.inr (Or.inr ?_)))
      have h15 : t - p.last_move < 15 := h
      simp only [Player.can_move, MOVEMENT_COOLDOWN, decide_eq_false_iff_not]
      exact not_le.mpr h15
  · refine hreject1 (is_position_blocked_oob L _ _ ?_ ?_ hw hh hoob)
    · exact Dvd.dvd.add hx (dvd_mul_left TILE_SIZE dx)
    · exact Dvd.dvd.add hy (dvd_mul_left TILE_SIZE dy)

/-- A 2x2-tile level whose north-east tile is solid, for the C3 witness. -/
def c3_loader : LoaderSt :=
  { collision_grid := [[false, true], [false, false]],
    _level_width := 32, _level_height := 32,
    transitioning := false, transition_timer := 0, transition_duration := 50,
    doors := [] }

/-- An attacking player at the origin, for the C3 witness. -/
def c3_attacking : Player := { Player.init 0 0 0 with state := .attacking }

/-- Witness for C3: each of the four rejection causes at a concrete input —
blocked tile, attacking state, active cooldown, and out-of-bounds
destination. -/
theorem move_rejections_witness :
    (c3_loader.is_position_blocked (0 + 1 * TILE_SIZE) (0 + 0 * TILE_SIZE)
        = true ∧
      c3_loader.move_player (Player.init 0 0 0) 1 0 100 =
        (false, Player.init 0 0 0)) ∧
    (c3_attacking.state = PState.attacking ∧
      c3_loader.move_player c3_attacking 0 1 100 = (false, c3_attacking)) ∧
    ((100 : Time) - (Player.init 0 0 0).last_move < MOVEMENT_COOLDOWN + 100 ∧
      c3_loader.move_player (Player.init 0 0 0) 0 1 10 =
        (false, Player.init 0 0 0)) ∧
    (¬ (0 ≤ (0 : Int) + (-1) * TILE_SIZE) ∧
      c3_loader.move_player (Player.init 0 0 0) (-1) 0 100 =
        (false, Player.init 0 0 0)) :=
  ⟨⟨by decide,
    (move_rejections c3_loader (Player.init 0 0 0) 1 0 100).1 (by decide)⟩,
   ⟨rfl,
    (move_rejections c3_loader c3_attacking 0 1 100).2.1 (Or.inl rfl)⟩,
   ⟨by decide,
    (move_rejections c3_loader (Player.init 0 0 0) 0 1 10).2.2.1 (by decide)⟩,
   ⟨by decide,
    (move_rejections c3_loader (Player.init 0 0 0) (-1) 0 100).2.2.2
      (by decide) (by decide) (by decide) (by decide) (by decide)⟩⟩

/-! ### Enemy patrol scenario (C8) -/

/-- A horizontal right-facing enemy whose move fires into a blocked tile goes
idle immediately, without moving. -/
theorem enemy_update_movement_blocked (e : Enemy) (now : Time) (lq : LoaderQ)
    (hmov : e.movement_type = "horizontal") (hfac : e.facing = .right)
    (hcd : e.move_cooldown ≤ now - e.last_move)
    (hblk : lq.blocked (e.x + TILE_SIZE) e.y = true) :
    e.update_movement now (some lq) =
      { e with state := .idle, state_timer := now,
               anim := e.anim.play ("idle_" ++ e.facing.str) true now } := by
  unfold Enemy.update_movement
  rw [if_neg (not_lt.mpr hcd)]
  simp only [hmov, hfac, if_true, eq_self_iff_true, one_mul, zero_mul,
    add_zero, hblk, Bool.not_true, if_false]
  rw [if_neg (show ¬ (false = true) by decide)]

/-- One `update` of a moving enemy facing a blocked destination: it enters
idle in place. -/
theorem enemy_blocked_goes_idle (e : Enemy) (lq : LoaderQ) (now : Time)
    (hst : e.state = EState.moving) (hmov : e.movement_type = "horizontal")
    (hfac : e.facing = .right) (hcd : e.move_cooldown ≤ now - e.last_move)
    (hblk : lq.blocked (e.x + TILE_SIZE) e.y = true) :
    (e.update now (some lq)).state = EState.idle ∧
    (e.update now (some lq)).x = e.x ∧ (e.update now (some lq)).y = e.y ∧
    (e.update now (some lq)).state_timer = now := by
  have hupd := enemy_update_movement_blocked e now lq hmov hfac hcd hblk
  unfold Enemy.update
  rw [if_neg (show ¬ e.state = EState.dying by rw [hst]; decide),
      if_neg (show ¬ e.state = EState.hurt by rw [hst]; decide),
      if_pos hst, hupd]
  exact ⟨rfl, rfl, rfl, rfl⟩

/-- Claim C8: the `blocks=2`, horizontal, right-facing, unobstructed enemy
performs exactly 2 cooldown-gated moves (16 px each), then idles in place for
exactly 3.0 s, then reverses facing, resets its per-run counter and resumes
moving (next move goes left); and a moving enemy whose destination is blocked
goes idle immediately instead of stalling. -/
theorem enemy_patrol_scenario :
    (c8_e1.x = 16 ∧ c8_e1.y = 0 ∧ c8_e1.state = EState.moving ∧
      c8_e1.blocks_moved = 1) ∧
    ((c8_e0.update 29 none).x = 0 ∧ (c8_e1.update 59 none).x = 16) ∧
    (c8_e2.x = 32 ∧ c8_e2.state = EState.idle ∧ c8_e2.state_timer = 60 ∧
      c8_e2.blocks_moved = 2) ∧
    (c8_e3.state = EState.idle ∧ c8_e3.facing = Facing.right ∧
      c8_e3.x = 32) ∧
    (c8_e4.state = EState.moving ∧ c8_e4.facing = Facing.left ∧
      c8_e4.blocks_moved = 0 ∧ c8_e4.x = 32) ∧
    c8_e5.x = 16 ∧
    (∀ (e : Enemy) (lq : LoaderQ) (now : Time),
      e.state = EState.moving → e.movement_type = "horizontal" →
      e.facing = .right → e.move_cooldown ≤ now - e.last_move →
      lq.blocked (e.x + TILE_SIZE) e.y = true →
      (e.update now (some lq)).state = EState.idle ∧
      (e.update now (some lq)).x = e.x ∧ (e.update now (some lq)).y = e.y ∧
      (e.update now (some lq)).state_timer = now) := by
  refine ⟨by decide, by decide, by decide, by decide, by decide, by decide,
    fun e lq now h1 h2 h3 h4 h5 => enemy_blocked_goes_idle e lq now h1 h2 h3 h4 h5⟩

/-- An all-blocked collision query, for the C8 witness. -/
def c8_blockedQ : LoaderQ :=
  { level_width := 64, level_height := 64, blocked := fun _ _ => true }

/-- Witness for C8: the fresh enemy against an all-blocked level goes idle in
place on its first cooldown expiry. -/
theorem enemy_patrol_scenario_witness :
    (c8_e0.state = EState.moving ∧ c8_e0.movement_type = "horizontal" ∧
      c8_e0.facing = Facing.right ∧
      c8_e0.move_cooldown ≤ (30 : Time) - c8_e0.last_move ∧
      c8_blockedQ.blocked (c8_e0.x + TILE_SIZE) c8_e0.y = true) ∧
    (c8_e0.update 30 (some c8_blockedQ)).state = EState.idle ∧
    (c8_e0.update 30 (some c8_blockedQ)).x = c8_e0.x :=
  ⟨⟨rfl, rfl, rfl, by decide, rfl⟩,
   (enemy_patrol_scenario.2.2.2.2.2.2 c8_e0 c8_blockedQ 30 rfl rfl rfl
      (by decide) rfl).1,
   (enemy_patrol_scenario.2.2.2.2.2.2 c8_e0 c8_blockedQ 30 rfl rfl rfl
      (by decide) rfl).2.1⟩

/-! ### Boss hit/defeat scenario (C1) -/

/-- Claim C1 (counterexample): three accepted hits take the boss from 3 to 0
health, but the score gains are +25, +25, +500 — the third accepted (lethal)
hit adds 500, not 25, so the score does not rise by 25 on each accepted hit
and the final total is 550, not 575. -/
theorem boss_score_counterexample :
    c1_r1.1 = true ∧ c1_r2.1 = true ∧ c1_r3.1 = true ∧
    c1_r1.2.2.score = 25 ∧ c1_r2.2.2.score = 50 ∧
    c1_r3.2.1.current_health = 0 ∧
    c1_r3.2.2.score - c1_r2.2.2.score = 500 ∧
    ¬ (c1_r3.2.2.score - c1_r2.2.2.score = 25) ∧
    ¬ (c1_r3.2.2.score = 575) := by decide

/-- Claim C1 (amended): from a fresh boss and score 0, the first two accepted
hits add 25 each (health 3 to 2 to 1); the third accepted hit drops health to
0, defeats the boss and adds 500 once (final score 550); and the defeated
boss is removal-eligible exactly once 3.0 s have elapsed after the defeat,
never before. -/
theorem boss_three_hits_amended :
    (c1_r1.1 = true ∧ c1_r1.2.2.score = 25 ∧ c1_r1.2.1.current_health = 2) ∧
    (c1_r2.1 = true ∧ c1_r2.2.2.score = 50 ∧ c1_r2.2.1.current_health = 1) ∧
    (c1_r3.1 = true ∧ c1_r3.2.2.score = 550 ∧
      c1_r3.2.1.current_health = 0 ∧ c1_r3.2.1.defeated = true ∧
      c1_r3.2.1.state = EState.dying ∧ c1_r3.2.1.victory_timer = 300 ∧
      c1_r3.2.2.victory_freeze = true) ∧
    (c1_r3.2.1.should_be_removed 599 = false ∧
      c1_r3.2.1.should_be_removed 600 = true) ∧
    (∀ now : Time,
      c1_r3.2.1.should_be_removed now = true ↔ 300 ≤ now - 300) := by
  refine ⟨by decide, by decide, by decide, by decide, fun now => ?_⟩
  have hd : c1_r3.2.1.defeated = true := by decide
  have hv : c1_r3.2.1.victory_timer = 300 := by decide
  unfold Boss.should_be_removed
  rw [hd, hv]
  simp
